import Mathlib

/-!
# Verification of the Vendora order lifecycle and commission engine

Shallow embedding of the order/commission/webhook core of the Vendora
multi-vendor e-commerce backend.

Modelling conventions:
* JavaScript `Number` money values are modelled as exact rationals (`ℚ`);
  `x.toFixed(2)` followed by `parseFloat` is modelled as exact decimal
  rounding to 2 places with ties away from zero for positive values
  (ECMAScript `toFixed` picks the larger candidate on ties), i.e.
  `round2 q = ⌊q * 100 + 1/2⌋ / 100`; `Math.round` is `jsRound q = ⌊q + 1/2⌋`.
* MongoDB documents are records in in-memory lists; `findById` /
  `findOne` are `List.find?`; `save` replaces the document with the same
  `_id` and runs the mongoose `pre('save')` hook (note that
  `save({validateBeforeSave:false})` skips validators but still runs the
  hook, as the source relies on); `findByIdAndUpdate` with `$inc` applies
  a blind increment and (by mongoose default) runs no validators, so the
  modelled `stock` is an unrestricted integer.
* Stripe's `webhooks.constructEvent` signature check is external
  cryptography; its success/failure on a given raw body and header is
  modelled as a boolean field of the incoming event.
-/

/-- JavaScript `a || b` on numbers (`0` is falsy; `ℚ` has no `NaN`). -/
def jsOr (a b : ℚ) : ℚ := if a = 0 then b else a

/-- `parseFloat(x.toFixed(2))` on a decimal value: round to 2 decimal
places, ties toward `+∞` (the larger candidate, as `toFixed` specifies). -/
def round2 (q : ℚ) : ℚ := (⌊q * 100 + 1/2⌋ : ℚ) / 100

/-- JavaScript `Math.round`: ties toward `+∞`. -/
def jsRound (q : ℚ) : ℤ := ⌊q + 1/2⌋

/-- A value that is a whole number of minor currency units (paisa),
i.e. an integer multiple of `1/100`. -/
def IsCent (q : ℚ) : Prop := (q * 100).den = 1

theorem isCent_iff (q : ℚ) : IsCent q ↔ ∃ k : ℤ, q = (k : ℚ) / 100 := by
  constructor
  · intro h
    refine ⟨(q * 100).num, ?_⟩
    have hnd := Rat.num_div_den (q * 100)
    rw [h] at hnd
    simp only [Nat.cast_one, div_one] at hnd
    rw [eq_div_iff (by norm_num : (100:ℚ) ≠ 0)]
    exact hnd.symm
  · rintro ⟨k, rfl⟩
    unfold IsCent
    rw [div_mul_cancel₀ _ (by norm_num : (100:ℚ) ≠ 0)]
    exact Rat.intCast_den k

theorem isCent_zero : IsCent 0 := (isCent_iff 0).2 ⟨0, by norm_num⟩

theorem isCent_add {a b : ℚ} (ha : IsCent a) (hb : IsCent b) : IsCent (a + b) := by
  rw [isCent_iff] at *
  obtain ⟨j, rfl⟩ := ha
  obtain ⟨k, rfl⟩ := hb
  exact ⟨j + k, by push_cast; ring⟩

theorem isCent_sub {a b : ℚ} (ha : IsCent a) (hb : IsCent b) : IsCent (a - b) := by
  rw [isCent_iff] at *
  obtain ⟨j, rfl⟩ := ha
  obtain ⟨k, rfl⟩ := hb
  exact ⟨j - k, by push_cast; ring⟩

theorem isCent_mul_nat {a : ℚ} (n : ℕ) (ha : IsCent a) : IsCent (a * (n : ℚ)) := by
  rw [isCent_iff] at *
  obtain ⟨j, rfl⟩ := ha
  exact ⟨j * n, by push_cast; ring⟩

theorem isCent_listSum {l : List ℚ} (h : ∀ x ∈ l, IsCent x) : IsCent l.sum := by
  induction l with
  | nil => simpa using isCent_zero
  | cons x xs ih =>
      rw [List.sum_cons]
      exact isCent_add (h x (List.mem_cons_self x xs))
        (ih fun y hy => h y (List.mem_cons_of_mem x hy))

theorem floor_half_eq_zero : ⌊(1/2 : ℚ)⌋ = 0 := by
  rw [Int.floor_eq_zero_iff]
  constructor <;> norm_num

theorem jsRound_intCast (k : ℤ) : jsRound (k : ℚ) = k := by
  unfold jsRound
  rw [add_comm, Int.floor_add_int, floor_half_eq_zero, zero_add]

theorem round2_eq_self {q : ℚ} (h : IsCent q) : round2 q = q := by
  rw [isCent_iff] at h
  obtain ⟨k, rfl⟩ := h
  unfold round2
  rw [div_mul_cancel₀ _ (by norm_num : (100:ℚ) ≠ 0), add_comm,
    Int.floor_add_int, floor_half_eq_zero, zero_add]

theorem isCent_round2 (q : ℚ) : IsCent (round2 q) :=
  (isCent_iff _).2 ⟨⌊q * 100 + 1/2⌋, rfl⟩

theorem jsRound_eq_of_cast_eq {z : ℤ} {q : ℚ} (h : (z : ℚ) = q) : jsRound q = z := by
  rw [← h, jsRound_intCast]

theorem round2_eq_of_bounds (q : ℚ) (k : ℤ) (h1 : (k : ℚ) ≤ q * 100 + 1/2)
    (h2 : q * 100 + 1/2 < (k : ℚ) + 1) : round2 q = (k : ℚ) / 100 := by
  unfold round2
  rw [Int.floor_eq_iff.mpr ⟨h1, by exact_mod_cast h2⟩]

/-! ## Data model (from `models/User.js`, `models/Order.js`, `models/Product.js`) -/

/-- `userSchema.role` enum: `['Admin', 'Vendor', 'Customer']`. -/
inductive Role where
  | Admin
  | Vendor
  | Customer
deriving DecidableEq, Repr

/-- The slice of `userSchema` the order endpoints read (`req.user`). -/
structure User where
  _id : ℕ
  role : Role
deriving DecidableEq, Repr

/-- `orderSchema.status` enum. -/
inductive OrderStatus where
  | Pending
  | Paid
  | Processing
  | Shipped
  | Delivered
  | Cancelled
  | Refunded
deriving DecidableEq, Repr

/-- `orderItemSchema`: snapshot plus per-line commission breakdown. -/
structure OrderItem where
  product : ℕ
  vendorId : ℕ
  name : String
  image : String
  price : ℚ
  qty : ℕ
  itemRevenue : ℚ
  platformFee : ℚ
  vendorPayout : ℚ
  itemStatus : String
deriving DecidableEq, Repr

/-- `shippingAddressSchema`. -/
structure ShippingAddress where
  fullName : String := ""
  phone : String := ""
  street : String := ""
  city : String := ""
  province : String := ""
  zip : String := ""
  country : String := "Pakistan"
deriving DecidableEq, Repr

/-- `orderSchema`. Timestamps are abstract instants (`ℕ`). -/
structure Order where
  _id : ℕ
  customer : ℕ
  items : List OrderItem
  shippingAddress : ShippingAddress
  subtotal : ℚ
  platformFeeTotal : ℚ
  shippingCost : ℚ
  total : ℚ
  commissionRate : ℚ
  paymentMethod : String := "stripe"
  stripeSessionId : Option String
  stripePaymentIntentId : Option String
  status : OrderStatus
  isPaid : Bool
  paidAt : Option ℕ
  isDelivered : Bool
  deliveredAt : Option ℕ
deriving DecidableEq, Repr

/-- `productSchema` (the fields the order lifecycle reads). `stock` is an
integer, not a natural: `findByIdAndUpdate` with `$inc` runs no validators,
so the `min: 0` bound is not enforced on that path and the model must be
able to represent the resulting states. -/
structure Product where
  id : ℕ
  name : String
  price : ℚ
  images : List String
  stock : ℤ
  vendorId : ℕ
  isActive : Bool
deriving DecidableEq, Repr

/-- The persistent store: the order and product collections. -/
structure DB where
  orders : List Order
  products : List Product
deriving DecidableEq, Repr

/-! ## Order pre-save hook (`orderSchema.pre('save')`, models/Order.js) -/

/-- `this.commissionRate || parseFloat(process.env.PLATFORM_COMMISSION_RATE) || 0.10`
with `envRate` the parsed environment value (`0` standing for unset/`NaN`,
both falsy). -/
def orderRate (commissionRate envRate : ℚ) : ℚ :=
  jsOr commissionRate (jsOr envRate (1/10))

/-- Body of the `this.items.map((item) => ...)` callback in the pre-save hook. -/
def computeItem (rate : ℚ) (item : OrderItem) : OrderItem :=
  let itemRevenue := item.price * (item.qty : ℚ)
  let platformFee := round2 (itemRevenue * rate)
  let vendorPayout := round2 (itemRevenue - platformFee)
  { item with itemRevenue := itemRevenue, platformFee := platformFee,
              vendorPayout := vendorPayout }

/-- The `orderSchema.pre('save')` hook: recompute every line item's
commission breakdown and the order-level totals. Runs on every `save`,
including `save({ validateBeforeSave: false })` (that option skips
validators, not hooks). -/
def preSave (envRate : ℚ) (o : Order) : Order :=
  let rate := orderRate o.commissionRate envRate
  let items := o.items.map (computeItem rate)
  let subtotal := (items.map (fun it => it.itemRevenue)).sum
  let platformFeeTotal := (items.map (fun it => it.platformFee)).sum
  { o with items := items,
           subtotal := round2 subtotal,
           platformFeeTotal := round2 platformFeeTotal,
           total := round2 (subtotal + o.shippingCost) }

theorem computeItem_price (rate : ℚ) (it : OrderItem) :
    (computeItem rate it).price = it.price := rfl

theorem computeItem_qty (rate : ℚ) (it : OrderItem) :
    (computeItem rate it).qty = it.qty := rfl

theorem computeItem_product (rate : ℚ) (it : OrderItem) :
    (computeItem rate it).product = it.product := rfl

theorem computeItem_itemRevenue (rate : ℚ) (it : OrderItem) :
    (computeItem rate it).itemRevenue = it.price * (it.qty : ℚ) := rfl

theorem computeItem_platformFee (rate : ℚ) (it : OrderItem) :
    (computeItem rate it).platformFee = round2 (it.price * (it.qty : ℚ) * rate) := rfl

theorem computeItem_vendorPayout (rate : ℚ) (it : OrderItem) :
    (computeItem rate it).vendorPayout =
      round2 (it.price * (it.qty : ℚ) - round2 (it.price * (it.qty : ℚ) * rate)) := rfl

theorem preSave_items (e : ℚ) (o : Order) :
    (preSave e o).items = o.items.map (computeItem (orderRate o.commissionRate e)) := rfl

theorem preSave_subtotal (e : ℚ) (o : Order) :
    (preSave e o).subtotal =
      round2 (((o.items.map (computeItem (orderRate o.commissionRate e))).map
        (fun it => it.itemRevenue)).sum) := rfl

theorem preSave_platformFeeTotal (e : ℚ) (o : Order) :
    (preSave e o).platformFeeTotal =
      round2 (((o.items.map (computeItem (orderRate o.commissionRate e))).map
        (fun it => it.platformFee)).sum) := rfl

theorem preSave_total (e : ℚ) (o : Order) :
    (preSave e o).total =
      round2 ((((o.items.map (computeItem (orderRate o.commissionRate e))).map
        (fun it => it.itemRevenue)).sum) + o.shippingCost) := rfl

theorem preSave_id (e : ℚ) (o : Order) : (preSave e o)._id = o._id := rfl

theorem preSave_status (e : ℚ) (o : Order) : (preSave e o).status = o.status := rfl

theorem preSave_isPaid (e : ℚ) (o : Order) : (preSave e o).isPaid = o.isPaid := rfl

theorem preSave_paidAt (e : ℚ) (o : Order) : (preSave e o).paidAt = o.paidAt := rfl

theorem preSave_isDelivered (e : ℚ) (o : Order) :
    (preSave e o).isDelivered = o.isDelivered := rfl

theorem preSave_deliveredAt (e : ℚ) (o : Order) :
    (preSave e o).deliveredAt = o.deliveredAt := rfl

theorem preSave_shippingCost (e : ℚ) (o : Order) :
    (preSave e o).shippingCost = o.shippingCost := rfl

theorem preSave_stripeSessionId (e : ℚ) (o : Order) :
    (preSave e o).stripeSessionId = o.stripeSessionId := rfl

/-! ## Store primitives -/

/-- `Product.findById` over the product collection. -/
def findProduct : List Product → ℕ → Option Product
  | [], _ => none
  | p :: rest, pid => if p.id = pid then some p else findProduct rest pid

/-- `Order.findById` over the order collection. -/
def findOrder : List Order → ℕ → Option Order
  | [], _ => none
  | o :: rest, oid => if o._id = oid then some o else findOrder rest oid

/-- `Order.findOne({ stripeSessionId })`. -/
def findOrderBySession : List Order → String → Option Order
  | [], _ => none
  | o :: rest, sid =>
      if o.stripeSessionId = some sid then some o else findOrderBySession rest sid

/-- `order.save()`: replace the stored document carrying the same `_id`. -/
def saveOrder (orders : List Order) (o' : Order) : List Order :=
  orders.map (fun x => if x._id = o'._id then o' else x)

/-- `Product.findByIdAndUpdate(id, { $inc: { stock: -qty } })` for each line
item: a blind decrement, no validators (mongoose default), no status guard. -/
def decrementStock : List Product → List OrderItem → List Product
  | ps, [] => ps
  | ps, it :: rest =>
      decrementStock
        (ps.map (fun p => if p.id = it.product then
          { p with stock := p.stock - (it.qty : ℤ) } else p)) rest

/-! ## Checkout orchestrator (`createOrder`, controllers/orderController.js) -/

/-- One `{productId, qty}` entry of the request cart. -/
structure CartLine where
  productId : ℕ
  qty : ℕ
deriving DecidableEq, Repr

/-- The body of `POST /api/orders` after `validateCreateOrder`. -/
structure OrderRequest where
  items : List CartLine
  shippingAddress : ShippingAddress
  shippingCost : ℚ
deriving DecidableEq, Repr

/-- The error responses of `createOrder`. -/
inductive OrderError where
  | noItems
  | notFound (productId : ℕ)
  | insufficientStock (name : String) (stock : ℤ)
deriving DecidableEq, Repr

/-- A Stripe Checkout line item (`price_data` + `quantity`);
`unit_amount` is in paisa (minor units). -/
structure SessionLineItem where
  name : String
  unit_amount : ℤ
  quantity : ℕ
deriving DecidableEq, Repr

/-- The Stripe Checkout session the orchestrator opens. -/
structure StripeSession where
  id : String
  lineItems : List SessionLineItem
  metadataOrderId : ℕ
deriving DecidableEq, Repr

/-- The success payload of `createOrder`. -/
structure CreateOrderResult where
  order : Order
  session : StripeSession
deriving DecidableEq, Repr

/-- The validation loop of `createOrder`: for each cart line fetch the
product; missing or inactive → 404 `NotFound`; `stock < qty` → 400
`InsufficientStock` naming the product and remaining stock; otherwise
push the snapshot `{product, vendorId, name, image, price, qty}`. -/
def validateItems (db : DB) : List CartLine → Except OrderError (List OrderItem)
  | [] => .ok []
  | line :: rest =>
      match findProduct db.products line.productId with
      | none => .error (.notFound line.productId)
      | some p =>
          if p.isActive = false then .error (.notFound line.productId)
          else if p.stock < (line.qty : ℤ) then .error (.insufficientStock p.name p.stock)
          else
            match validateItems db rest with
            | .error e => .error e
            | .ok tail =>
                .ok ({ product := p.id, vendorId := p.vendorId, name := p.name,
                       image := p.images.headD "", price := p.price, qty := line.qty,
                       itemRevenue := 0, platformFee := 0, vendorPayout := 0,
                       itemStatus := "Pending" } :: tail)

/-- A fresh `_id` for a new order document. -/
def freshOrderId (db : DB) : ℕ := (db.orders.map (fun o => o._id)).foldr max 0 + 1

/-- The Stripe line items built from the validated snapshot:
`unit_amount: Math.round(item.price * 100)`, plus a `Shipping` line when
`shippingCost > 0`. -/
def buildLineItems (items : List OrderItem) (shippingCost : ℚ) : List SessionLineItem :=
  let base := items.map (fun it =>
    { name := it.name, unit_amount := jsRound (it.price * 100), quantity := it.qty })
  if shippingCost > 0 then
    base ++ [{ name := "Shipping", unit_amount := jsRound (shippingCost * 100), quantity := 1 }]
  else base

/-- The `new Order({...})` document `createOrder` builds: snapshot items,
zeroed totals (the pre-save hook recomputes them), schema defaults for
`commissionRate` (0.10), `status` (`Pending`) and the payment flags. -/
def newOrderDoc (customer : ℕ) (req : OrderRequest) (db : DB)
    (validatedItems : List OrderItem) : Order :=
  { _id := freshOrderId db, customer := customer, items := validatedItems,
    shippingAddress := req.shippingAddress, subtotal := 0,
    platformFeeTotal := 0, shippingCost := req.shippingCost, total := 0,
    commissionRate := 1/10, stripeSessionId := none,
    stripePaymentIntentId := none, status := .Pending, isPaid := false,
    paidAt := none, isDelivered := false, deliveredAt := none }

/-- `POST /api/orders` (`createOrder`). `sessionId` is the identifier the
external provider mints for the Checkout session. On any thrown error the
handler aborts before `order.save()`, so the store is returned untouched.
On success: first `await order.save()` (runs the pre-save hook), then the
session is created, then `order.stripeSessionId = session.id` and
`await order.save({ validateBeforeSave: false })` (which still runs the
pre-save hook). -/
def createOrder (envRate : ℚ) (sessionId : String) (customer : ℕ)
    (req : OrderRequest) (db : DB) : Except OrderError CreateOrderResult × DB :=
  if req.items.isEmpty then (.error .noItems, db)
  else
    match validateItems db req.items with
    | .error e => (.error e, db)
    | .ok validatedItems =>
        let order1 := preSave envRate (newOrderDoc customer req db validatedItems)
        let db1 : DB := { db with orders := db.orders ++ [order1] }
        let session : StripeSession :=
          { id := sessionId, lineItems := buildLineItems validatedItems req.shippingCost,
            metadataOrderId := order1._id }
        let order2 := preSave envRate { order1 with stripeSessionId := some session.id }
        let db2 : DB := { db1 with orders := saveOrder db1.orders order2 }
        (.ok { order := order2, session := session }, db2)

/-- Total amount the session charges, in minor units (paisa). -/
def sessionTotalMinor (s : StripeSession) : ℤ :=
  (s.lineItems.map (fun li => li.unit_amount * (li.quantity : ℤ))).sum

/-! ## Payment reconciliation webhook (`stripeWebhook`) -/

/-- An inbound webhook delivery, after the external
`stripe.webhooks.constructEvent(rawBody, signature, secret)` call:
`sigValid` records whether that cryptographic verification succeeds for
the delivered raw payload and header. -/
structure WebhookEvent where
  type : String
  sessionId : String
  paymentIntent : String
  sigValid : Bool
deriving DecidableEq, Repr

/-- `POST /api/stripe/webhook` (`stripeWebhook`): returns the HTTP status
and the store. Invalid signature → 400, nothing touched. A verified
`checkout.session.completed` event: look the order up by session id; if
none, acknowledge 200 and drop; otherwise mark it `Paid` (save runs the
pre-save hook) and blindly decrement stock for each line item — there is
no already-`Paid` guard in the source. -/
def stripeWebhook (envRate : ℚ) (now : ℕ) (ev : WebhookEvent) (db : DB) : ℕ × DB :=
  if ev.sigValid = false then (400, db)
  else if ev.type = "checkout.session.completed" then
    match findOrderBySession db.orders ev.sessionId with
    | none => (200, db)
    | some order =>
        let paid := preSave envRate
          { order with status := .Paid, isPaid := true, paidAt := some now,
                       stripePaymentIntentId := some ev.paymentIntent }
        let db1 : DB := { db with orders := saveOrder db.orders paid }
        let db2 : DB := { db1 with products := decrementStock db1.products paid.items }
        (200, db2)
  else (200, db)

/-! ## Order status update (`updateOrderStatus`) -/

/-- `order.items.some((item) => item.vendorId.toString() === req.user._id.toString())`. -/
def hasVendorItems : List OrderItem → ℕ → Bool
  | [], _ => false
  | it :: rest, vid => if it.vendorId = vid then true else hasVendorItems rest vid

/-- `PUT /api/orders/:id/status` (`updateOrderStatus`) after
`validateOrderStatus` has confirmed `status` lies in the enum. 404 when
the order is missing; 403 when a vendor actor owns none of its items;
otherwise set the status unconditionally — there is no transition table —
and, when the new status is `Delivered`, set `isDelivered`/`deliveredAt`
to the current instant. `order.save()` runs the pre-save hook. -/
def updateOrderStatus (envRate : ℚ) (now : ℕ) (user : User) (orderId : ℕ)
    (status : OrderStatus) (db : DB) : ℕ × DB :=
  match findOrder db.orders orderId with
  | none => (404, db)
  | some order =>
      if user.role = .Vendor ∧ hasVendorItems order.items user._id = false then (403, db)
      else
        let o1 := { order with status := status }
        let o2 := if status = .Delivered then
            { o1 with isDelivered := true, deliveredAt := some now } else o1
        let o3 := preSave envRate o2
        (200, { db with orders := saveOrder db.orders o3 })

/-! ## Observation helpers -/

/-- The stock the catalog records for a product id. -/
def productStock (db : DB) (pid : ℕ) : Option ℤ :=
  (findProduct db.products pid).map (fun p => p.stock)

/-- The status the ledger records for an order id. -/
def orderStatusOf (db : DB) (oid : ℕ) : Option OrderStatus :=
  (findOrder db.orders oid).map (fun o => o.status)

/-- The `deliveredAt` timestamp the ledger records for an order id. -/
def deliveredAtOf (db : DB) (oid : ℕ) : Option (Option ℕ) :=
  (findOrder db.orders oid).map (fun o => o.deliveredAt)

/-- The `paidAt` timestamp the ledger records for an order id. -/
def paidAtOf (db : DB) (oid : ℕ) : Option (Option ℕ) :=
  (findOrder db.orders oid).map (fun o => o.paidAt)

/-! ## C1: financial invariants of every saved order -/

theorem isCent_itemRevenue {o : Order} (hprice : ∀ it ∈ o.items, IsCent it.price)
    (rate : ℚ) :
    ∀ x ∈ (o.items.map (computeItem rate)).map (fun it => it.itemRevenue), IsCent x := by
  intro x hx
  simp only [List.map_map, List.mem_map, Function.comp] at hx
  obtain ⟨it, hit, rfl⟩ := hx
  rw [computeItem_itemRevenue]
  exact isCent_mul_nat _ (hprice it hit)

theorem isCent_platformFee (o : Order) (rate : ℚ) :
    ∀ x ∈ (o.items.map (computeItem rate)).map (fun it => it.platformFee), IsCent x := by
  intro x hx
  simp only [List.map_map, List.mem_map, Function.comp] at hx
  obtain ⟨it, hit, rfl⟩ := hx
  rw [computeItem_platformFee]
  exact isCent_round2 _

/-- C1. For every order passed through the save path (the pre-save hook),
assuming unit prices and the shipping cost are whole numbers of paisa:
each stored line item satisfies `itemRevenue = price * qty` and
`platformFee + vendorPayout = itemRevenue` exactly; the stored
`subtotal` is the sum of the stored `itemRevenue`s, `platformFeeTotal`
the sum of the stored `platformFee`s, and `total = subtotal +
shippingCost`; and the three order-level fields are recomputed from the
line items alone — whatever `subtotal`/`platformFeeTotal`/`total` the
caller supplied, the saved document is identical. -/
theorem preSave_financial_invariants (e : ℚ) (o : Order)
    (hprice : ∀ it ∈ o.items, IsCent it.price)
    (hship : IsCent o.shippingCost) :
    (preSave e o).items.map (fun it => it.itemRevenue) =
        o.items.map (fun it => it.price * (it.qty : ℚ)) ∧
    (∀ it ∈ (preSave e o).items, it.platformFee + it.vendorPayout = it.itemRevenue) ∧
    (preSave e o).subtotal = ((preSave e o).items.map (fun it => it.itemRevenue)).sum ∧
    (preSave e o).platformFeeTotal =
        ((preSave e o).items.map (fun it => it.platformFee)).sum ∧
    (preSave e o).total = (preSave e o).subtotal + (preSave e o).shippingCost ∧
    (∀ s p t, preSave e
        { o with subtotal := s, platformFeeTotal := p, total := t } = preSave e o) := by
  have hS : IsCent (((o.items.map (computeItem (orderRate o.commissionRate e))).map
      (fun it => it.itemRevenue)).sum) :=
    isCent_listSum (isCent_itemRevenue hprice _)
  have hF : IsCent (((o.items.map (computeItem (orderRate o.commissionRate e))).map
      (fun it => it.platformFee)).sum) :=
    isCent_listSum (isCent_platformFee o _)
  refine ⟨?_, ?_, ?_, ?_, ?_, ?_⟩
  · rw [preSave_items]
    simp only [List.map_map, Function.comp]
    exact List.map_congr_left fun it _ => computeItem_itemRevenue _ it
  · intro it' hit'
    rw [preSave_items] at hit'
    obtain ⟨it, hit, rfl⟩ := List.mem_map.1 hit'
    rw [computeItem_platformFee, computeItem_vendorPayout, computeItem_itemRevenue]
    have hrev : IsCent (it.price * (it.qty : ℚ)) := isCent_mul_nat _ (hprice it hit)
    have hfee : IsCent (round2 (it.price * (it.qty : ℚ) *
        orderRate o.commissionRate e)) := isCent_round2 _
    rw [round2_eq_self (isCent_sub hrev hfee)]
    ring
  · rw [preSave_subtotal, preSave_items, round2_eq_self hS]
  · rw [preSave_platformFeeTotal, preSave_items, round2_eq_self hF]
  · rw [preSave_total, preSave_subtotal, preSave_shippingCost,
      round2_eq_self (isCent_add hS hship), round2_eq_self hS]
  · intro s p t
    rfl

/-- A concrete order exercising `preSave_financial_invariants`: one line
item at PKR 29.99 × 3, shipping PKR 2.50, and caller-supplied garbage in
every derived field. -/
def w1Order : Order :=
  { _id := 1, customer := 2,
    items := [{ product := 11, vendorId := 7, name := "Scarf", image := "s.jpg",
                price := 2999/100, qty := 3, itemRevenue := 5, platformFee := 5,
                vendorPayout := 5, itemStatus := "Pending" }],
    shippingAddress := {}, subtotal := 999, platformFeeTotal := 999,
    shippingCost := 5/2, total := 999, commissionRate := 1/10,
    stripeSessionId := none, stripePaymentIntentId := none, status := .Pending,
    isPaid := false, paidAt := none, isDelivered := false, deliveredAt := none }

theorem preSave_financial_invariants_witness :
    (∀ it ∈ w1Order.items, IsCent it.price) ∧ IsCent w1Order.shippingCost ∧
    ((preSave 0 w1Order).items.map (fun it => it.itemRevenue) =
        w1Order.items.map (fun it => it.price * (it.qty : ℚ)) ∧
      (∀ it ∈ (preSave 0 w1Order).items, it.platformFee + it.vendorPayout = it.itemRevenue) ∧
      (preSave 0 w1Order).subtotal =
        ((preSave 0 w1Order).items.map (fun it => it.itemRevenue)).sum ∧
      (preSave 0 w1Order).platformFeeTotal =
        ((preSave 0 w1Order).items.map (fun it => it.platformFee)).sum ∧
      (preSave 0 w1Order).total = (preSave 0 w1Order).subtotal + (preSave 0 w1Order).shippingCost ∧
      (∀ s p t, preSave 0
          { w1Order with subtotal := s, platformFeeTotal := p, total := t } = preSave 0 w1Order)) := by
  have h1 : ∀ it ∈ w1Order.items, IsCent it.price := by
    intro it hit
    simp only [w1Order, List.mem_singleton] at hit
    subst hit
    exact (isCent_iff _).2 ⟨2999, by norm_num⟩
  have h2 : IsCent w1Order.shippingCost := (isCent_iff _).2 ⟨250, by norm_num [w1Order]⟩
  exact ⟨h1, h2, preSave_financial_invariants 0 w1Order h1 h2⟩

/-! ## C3: round each line item's fee to 2 decimals before summing -/

/-- The two-item order of the commission-rounding test case:
`{99.99 × 3, 0.01 × 1}` at commission rate `0.10`. -/
def exOrder : Order :=
  { _id := 3, customer := 2,
    items := [{ product := 21, vendorId := 7, name := "Lamp", image := "l.jpg",
                price := 9999/100, qty := 3, itemRevenue := 0, platformFee := 0,
                vendorPayout := 0, itemStatus := "Pending" },
              { product := 22, vendorId := 8, name := "Pin", image := "p.jpg",
                price := 1/100, qty := 1, itemRevenue := 0, platformFee := 0,
                vendorPayout := 0, itemStatus := "Pending" }],
    shippingAddress := {}, subtotal := 0, platformFeeTotal := 0,
    shippingCost := 0, total := 0, commissionRate := 1/10,
    stripeSessionId := none, stripePaymentIntentId := none, status := .Pending,
    isPaid := false, paidAt := none, isDelivered := false, deliveredAt := none }

theorem round2_29997over1000 : round2 ((29997/1000 : ℚ)) = 30 := by
  rw [round2_eq_of_bounds _ 3000 (by norm_num) (by norm_num)]
  norm_num

theorem round2_1over1000 : round2 ((1/1000 : ℚ)) = 0 := by
  rw [round2_eq_of_bounds _ 0 (by norm_num) (by norm_num)]
  norm_num

theorem round2_30 : round2 ((30 : ℚ)) = 30 :=
  round2_eq_self ((isCent_iff _).2 ⟨3000, by norm_num⟩)

/-- C3. The commission computation rounds each line item's fee to two
decimal places and then sums the rounded fees (the aggregate is the
rounded sum of per-item rounded fees, never a sum of raw fees); on the
two-item order `{99.99 × 3, 0.01 × 1}` at rate `0.10` the stored per-item
fees are `[30.00, 0.00]` and `platformFeeTotal` is exactly `30.00`. -/
theorem platformFee_rounded_per_item_before_sum :
    (∀ (e : ℚ) (o : Order), (preSave e o).platformFeeTotal =
      round2 ((o.items.map (fun it =>
        round2 (it.price * (it.qty : ℚ) * orderRate o.commissionRate e))).sum)) ∧
    (preSave 0 exOrder).items.map (fun it => it.platformFee) = [30, 0] ∧
    (preSave 0 exOrder).platformFeeTotal = 30 := by
  have hgen : ∀ (e : ℚ) (o : Order), (preSave e o).platformFeeTotal =
      round2 ((o.items.map (fun it =>
        round2 (it.price * (it.qty : ℚ) * orderRate o.commissionRate e))).sum) := by
    intro e o
    rw [preSave_platformFeeTotal]
    congr 1
    rw [List.map_map]
    exact congrArg List.sum
      (List.map_congr_left fun it _ => computeItem_platformFee _ it)
  have hrate : orderRate exOrder.commissionRate 0 = 1/10 := by
    rw [show exOrder.commissionRate = 1/10 from rfl, orderRate, jsOr, if_neg (by norm_num)]
  refine ⟨hgen, ?_, ?_⟩
  · rw [preSave_items, hrate]
    show [(computeItem (1/10) _).platformFee, (computeItem (1/10) _).platformFee] = [30, 0]
    rw [computeItem_platformFee, computeItem_platformFee]
    norm_num
    exact ⟨round2_29997over1000, round2_1over1000⟩
  · rw [hgen, hrate]
    show round2 (round2 ((9999/100 : ℚ) * ((3:ℕ) : ℚ) * (1/10)) +
      (round2 ((1/100 : ℚ) * ((1:ℕ) : ℚ) * (1/10)) + 0)) = 30
    rw [show (9999/100 : ℚ) * ((3:ℕ) : ℚ) * (1/10) = 29997/1000 by norm_num,
      show (1/100 : ℚ) * ((1:ℕ) : ℚ) * (1/10) = 1/1000 by norm_num,
      round2_29997over1000, round2_1over1000]
    norm_num [round2_30]

/-! ## C6: invalid signature fails closed -/

/-- C6. A webhook delivery whose signature does not verify against the
raw payload is answered with HTTP 400 and the store is returned exactly
as it was: no order and no product is mutated. -/
theorem stripeWebhook_invalid_signature_no_mutation (e : ℚ) (now : ℕ)
    (ev : WebhookEvent) (db : DB) (h : ev.sigValid = false) :
    stripeWebhook e now ev db = (400, db) := by
  simp [stripeWebhook, h]

/-- A forged delivery: valid-looking completed-checkout payload, bad
signature. -/
def evForged : WebhookEvent :=
  { type := "checkout.session.completed", sessionId := "cs_1",
    paymentIntent := "pi_9", sigValid := false }

theorem stripeWebhook_invalid_signature_no_mutation_witness :
    evForged.sigValid = false ∧
    stripeWebhook (1/10) 50 evForged { orders := [], products := [] } =
      (400, { orders := [], products := [] }) :=
  ⟨rfl, stripeWebhook_invalid_signature_no_mutation (1/10) 50 evForged
    { orders := [], products := [] } rfl⟩

/-! ## C7: verified event with unknown session acknowledges and drops -/

/-- C7. A signature-verified `checkout.session.completed` delivery whose
session id matches no stored order is acknowledged with HTTP 200 and the
store is returned exactly as it was. -/
theorem stripeWebhook_unknown_session_ack_no_mutation (e : ℚ) (now : ℕ)
    (ev : WebhookEvent) (db : DB) (hsig : ev.sigValid = true)
    (htype : ev.type = "checkout.session.completed")
    (hnone : findOrderBySession db.orders ev.sessionId = none) :
    stripeWebhook e now ev db = (200, db) := by
  simp [stripeWebhook, hsig, htype, hnone]

/-- A verified completed-checkout event for a session this system never
opened. -/
def evStale : WebhookEvent :=
  { type := "checkout.session.completed", sessionId := "cs_foreign",
    paymentIntent := "pi_2", sigValid := true }

theorem stripeWebhook_unknown_session_ack_no_mutation_witness :
    evStale.sigValid = true ∧ evStale.type = "checkout.session.completed" ∧
    findOrderBySession (DB.mk [] []).orders evStale.sessionId = none ∧
    stripeWebhook (1/10) 50 evStale (DB.mk [] []) = (200, DB.mk [] []) :=
  ⟨rfl, rfl, rfl, stripeWebhook_unknown_session_ack_no_mutation (1/10) 50 evStale
    (DB.mk [] []) rfl rfl rfl⟩

/-! ## C2 and C4: webhook redelivery is not idempotent in the source -/

/-- Catalog product with 5 in stock. -/
def prodW : Product :=
  { id := 1, name := "Widget", price := 1000, images := ["w.jpg"], stock := 5,
    vendorId := 7, isActive := true }

/-- A pending order of 2 Widgets, awaiting payment for session `cs_1`. -/
def orderW : Order :=
  { _id := 1, customer := 2,
    items := [{ product := 1, vendorId := 7, name := "Widget", image := "w.jpg",
                price := 1000, qty := 2, itemRevenue := 0, platformFee := 0,
                vendorPayout := 0, itemStatus := "Pending" }],
    shippingAddress := {}, subtotal := 0, platformFeeTotal := 0,
    shippingCost := 0, total := 0, commissionRate := 1/10,
    stripeSessionId := some "cs_1", stripePaymentIntentId := none,
    status := .Pending, isPaid := false, paidAt := none, isDelivered := false,
    deliveredAt := none }

def dbW : DB := { orders := [orderW], products := [prodW] }

/-- The provider's completed-checkout notification for session `cs_1`,
with a valid signature. -/
def evW : WebhookEvent :=
  { type := "checkout.session.completed", sessionId := "cs_1",
    paymentIntent := "pi_1", sigValid := true }

/-- C2. Failing input, evaluated: delivering the same verified
completed-checkout event twice marks the order `Paid` both times, but the
second delivery decrements the Widget's stock again (5 → 3 → 1) — the
handler has no already-`Paid` guard, so redelivery is not a no-op on
stock, contradicting the claimed idempotence. -/
theorem stripeWebhook_redelivery_double_decrements :
    orderStatusOf (stripeWebhook (1/10) 100 evW dbW).2 1 = some .Paid ∧
    productStock (stripeWebhook (1/10) 100 evW dbW).2 1 = some 3 ∧
    orderStatusOf (stripeWebhook (1/10) 200 evW (stripeWebhook (1/10) 100 evW dbW).2).2 1 =
      some .Paid ∧
    productStock (stripeWebhook (1/10) 200 evW (stripeWebhook (1/10) 100 evW dbW).2).2 1 =
      some 1 := by
  refine ⟨?_, ?_, ?_, ?_⟩ <;>
    simp [stripeWebhook, dbW, evW, orderW, prodW, findOrderBySession, saveOrder,
      decrementStock, preSave, computeItem, orderRate, jsOr, productStock,
      orderStatusOf, findProduct, findOrder]

/-- Catalog product with exactly 1 in stock. -/
def prodL : Product :=
  { id := 4, name := "Vase", price := 500, images := ["v.jpg"], stock := 1,
    vendorId := 7, isActive := true }

/-- A pending order of the last Vase, awaiting payment for session `cs_4`. -/
def orderL : Order :=
  { _id := 4, customer := 2,
    items := [{ product := 4, vendorId := 7, name := "Vase", image := "v.jpg",
                price := 500, qty := 1, itemRevenue := 0, platformFee := 0,
                vendorPayout := 0, itemStatus := "Pending" }],
    shippingAddress := {}, subtotal := 0, platformFeeTotal := 0,
    shippingCost := 0, total := 0, commissionRate := 1/10,
    stripeSessionId := some "cs_4", stripePaymentIntentId := none,
    status := .Pending, isPaid := false, paidAt := none, isDelivered := false,
    deliveredAt := none }

def dbL : DB := { orders := [orderL], products := [prodL] }

/-- The provider's completed-checkout notification for session `cs_4`. -/
def evL : WebhookEvent :=
  { type := "checkout.session.completed", sessionId := "cs_4",
    paymentIntent := "pi_4", sigValid := true }

/-- C4. Failing input, evaluated: the webhook decrement is a blind `$inc`
with no guard and no validator, so redelivering the verified
completed-checkout event for the paid order of the last Vase drives its
stock negative (1 → 0 → −1), and the single paid order has been
decremented twice. -/
theorem stripeWebhook_redelivery_negative_stock :
    productStock (stripeWebhook (1/10) 100 evL dbL).2 4 = some 0 ∧
    productStock (stripeWebhook (1/10) 200 evL (stripeWebhook (1/10) 100 evL dbL).2).2 4 =
      some (-1) := by
  refine ⟨?_, ?_⟩ <;>
    simp [stripeWebhook, dbL, evL, orderL, prodL, findOrderBySession, saveOrder,
      decrementStock, preSave, computeItem, orderRate, jsOr, productStock,
      findProduct]

/-! ## C9: the boolean/timestamp companion pairs -/

/-- The administrator who drives the status updates. -/
def adminU : User := { _id := 99, role := .Admin }

/-- A pending order used to exercise the status-update endpoint. -/
def orderS : Order :=
  { _id := 6, customer := 2,
    items := [{ product := 1, vendorId := 7, name := "Widget", image := "w.jpg",
                price := 1000, qty := 2, itemRevenue := 0, platformFee := 0,
                vendorPayout := 0, itemStatus := "Pending" }],
    shippingAddress := {}, subtotal := 0, platformFeeTotal := 0,
    shippingCost := 0, total := 0, commissionRate := 1/10,
    stripeSessionId := none, stripePaymentIntentId := none,
    status := .Pending, isPaid := false, paidAt := none, isDelivered := false,
    deliveredAt := none }

def dbS : DB := { orders := [orderS], products := [] }

/-- C9, counterexample. Updating the same order to `Delivered` twice, at
instants 100 and then 200, overwrites `deliveredAt`: the stored timestamp
changes from 100 to 200, so the pair is not written exactly once on first
reach and a later repeated `Delivered` update does overwrite it. -/
theorem deliveredAt_overwritten_on_repeat_delivered :
    deliveredAtOf (updateOrderStatus (1/10) 100 adminU 6 .Delivered dbS).2 6 =
      some (some 100) ∧
    deliveredAtOf (updateOrderStatus (1/10) 200 adminU 6 .Delivered
        (updateOrderStatus (1/10) 100 adminU 6 .Delivered dbS).2).2 6 =
      some (some 200) := by
  refine ⟨?_, ?_⟩ <;>
    simp [updateOrderStatus, dbS, orderS, adminU, findOrder, saveOrder,
      hasVendorItems, preSave, computeItem, orderRate, jsOr, deliveredAtOf]

theorem findOrder_eq_some_id {orders : List Order} {oid : ℕ} {o : Order}
    (h : findOrder orders oid = some o) : o._id = oid := by
  induction orders with
  | nil => simp [findOrder] at h
  | cons x xs ih =>
      rw [findOrder] at h
      by_cases hx : x._id = oid
      · rw [if_pos hx] at h
        cases h
        exact hx
      · rw [if_neg hx] at h
        exact ih h

theorem findOrderBySession_mem {orders : List Order} {sid : String} {o : Order}
    (h : findOrderBySession orders sid = some o) : o ∈ orders := by
  induction orders with
  | nil => simp [findOrderBySession] at h
  | cons x xs ih =>
      rw [findOrderBySession] at h
      by_cases hx : x.stripeSessionId = some sid
      · rw [if_pos hx] at h
        exact (Option.some.inj h) ▸ List.mem_cons_self x xs
      · rw [if_neg hx] at h
        exact List.mem_cons_of_mem x (ih h)

theorem findOrder_isSome_of_mem {orders : List Order} {o : Order} (h : o ∈ orders) :
    ∃ y, findOrder orders o._id = some y := by
  induction orders with
  | nil => simp at h
  | cons x xs ih =>
      by_cases hx : x._id = o._id
      · exact ⟨x, by rw [findOrder, if_pos hx]⟩
      · rcases List.mem_cons.1 h with rfl | hmem
        · exact absurd rfl hx
        · obtain ⟨y, hy⟩ := ih hmem
          exact ⟨y, by rw [findOrder, if_neg hx, hy]⟩

theorem findOrder_saveOrder {orders : List Order} {oid : ℕ} {order : Order}
    (o' : Order) (h : findOrder orders oid = some order) (hid : o'._id = oid) :
    findOrder (saveOrder orders o') oid = some o' := by
  induction orders with
  | nil => simp [findOrder] at h
  | cons x xs ih =>
      rw [findOrder] at h
      rw [saveOrder, List.map_cons]
      by_cases hx : x._id = oid
      · rw [if_pos (by rw [hid]; exact hx), findOrder, if_pos hid]
      · rw [if_neg (fun hc => hx (hid ▸ hc)), findOrder, if_neg hx]
        rw [if_neg hx] at h
        exact ih h

/-- The order document the webhook's paid path saves: status `Paid`,
`isPaid`, a fresh `paidAt`, the provider's payment-intent id, passed
through the pre-save hook. -/
def paidOrder (e : ℚ) (now : ℕ) (ev : WebhookEvent) (order : Order) : Order :=
  preSave e { order with status := .Paid, isPaid := true, paidAt := some now,
                         stripePaymentIntentId := some ev.paymentIntent }

theorem stripeWebhook_found_eq (e : ℚ) (now : ℕ) (ev : WebhookEvent) (db : DB)
    (order : Order) (h3 : ev.sigValid = true)
    (h4 : ev.type = "checkout.session.completed")
    (h5 : findOrderBySession db.orders ev.sessionId = some order) :
    stripeWebhook e now ev db =
      (200, { db with orders := saveOrder db.orders (paidOrder e now ev order),
                      products := decrementStock db.products
                        (paidOrder e now ev order).items }) := by
  simp only [stripeWebhook, h3, h4, h5, paidOrder, if_pos, Bool.true_eq_false,
    if_false, if_true]

/-- The order document `updateOrderStatus` saves for an authorized actor:
the requested status, the `Delivered` branch's flag/timestamp when
applicable, passed through the pre-save hook. -/
def statusSavedOrder (e : ℚ) (now : ℕ) (st : OrderStatus) (order : Order) : Order :=
  preSave e (if st = .Delivered then
    { order with status := st, isDelivered := true, deliveredAt := some now }
  else { order with status := st })

theorem updateOrderStatus_admin_eq (e : ℚ) (now : ℕ) (user : User) (oid : ℕ)
    (st : OrderStatus) (db : DB) (order : Order)
    (h1 : findOrder db.orders oid = some order) (h2 : user.role = .Admin) :
    updateOrderStatus e now user oid st db =
      (200, { db with orders := saveOrder db.orders (statusSavedOrder e now st order) }) := by
  simp only [updateOrderStatus, h1, h2, statusSavedOrder]
  rw [if_neg (fun hc => by cases hc.1)]

/-- C9, amended. The companion pairs are written on every operation that
sets the corresponding status, not only the first: any authorized
`Delivered` status update stores `isDelivered = true` and overwrites
`deliveredAt` with the current instant, and every verified
completed-checkout webhook delivery that finds its order stores
`isPaid = true` and overwrites `paidAt` with the current instant; each
operation leaves the other pair exactly as it was, and neither ever
resets a flag to false. -/
theorem status_flag_timestamp_set_on_every_update
    (e : ℚ) (now now₂ : ℕ) (user : User) (oid : ℕ) (db db₂ : DB)
    (order order₂ : Order) (ev : WebhookEvent)
    (h1 : findOrder db.orders oid = some order)
    (h2 : user.role = .Admin)
    (h3 : ev.sigValid = true)
    (h4 : ev.type = "checkout.session.completed")
    (h5 : findOrderBySession db₂.orders ev.sessionId = some order₂) :
    (∃ o', findOrder (updateOrderStatus e now user oid .Delivered db).2.orders oid =
        some o' ∧ o'.isDelivered = true ∧ o'.deliveredAt = some now ∧
        o'.isPaid = order.isPaid ∧ o'.paidAt = order.paidAt) ∧
    (∃ o', findOrder (stripeWebhook e now₂ ev db₂).2.orders order₂._id = some o' ∧
        o'.isPaid = true ∧ o'.paidAt = some now₂ ∧
        o'.isDelivered = order₂.isDelivered ∧ o'.deliveredAt = order₂.deliveredAt) := by
  constructor
  · rw [updateOrderStatus_admin_eq e now user oid .Delivered db order h1 h2]
    refine ⟨statusSavedOrder e now .Delivered order, ?_, ?_, ?_, ?_, ?_⟩
    · refine findOrder_saveOrder _ h1 ?_
      rw [statusSavedOrder, preSave_id, if_pos rfl]
      show order._id = oid
      exact findOrder_eq_some_id h1
    · rw [statusSavedOrder, if_pos rfl, preSave_isDelivered]
    · rw [statusSavedOrder, if_pos rfl, preSave_deliveredAt]
    · rw [statusSavedOrder, if_pos rfl, preSave_isPaid]
    · rw [statusSavedOrder, if_pos rfl, preSave_paidAt]
  · rw [stripeWebhook_found_eq e now₂ ev db₂ order₂ h3 h4 h5]
    obtain ⟨y, hy⟩ := findOrder_isSome_of_mem (findOrderBySession_mem h5)
    refine ⟨paidOrder e now₂ ev order₂, ?_, ?_, ?_, ?_, ?_⟩
    · exact findOrder_saveOrder _ hy (by rw [paidOrder, preSave_id])
    · rw [paidOrder, preSave_isPaid]
    · rw [paidOrder, preSave_paidAt]
    · rw [paidOrder, preSave_isDelivered]
    · rw [paidOrder, preSave_deliveredAt]

theorem status_flag_timestamp_set_on_every_update_witness :
    findOrder dbS.orders 6 = some orderS ∧ adminU.role = .Admin ∧
    evW.sigValid = true ∧ evW.type = "checkout.session.completed" ∧
    findOrderBySession dbW.orders evW.sessionId = some orderW ∧
    ((∃ o', findOrder (updateOrderStatus (1/10) 100 adminU 6 .Delivered dbS).2.orders 6 =
        some o' ∧ o'.isDelivered = true ∧ o'.deliveredAt = some 100 ∧
        o'.isPaid = orderS.isPaid ∧ o'.paidAt = orderS.paidAt) ∧
    (∃ o', findOrder (stripeWebhook (1/10) 150 evW dbW).2.orders orderW._id = some o' ∧
        o'.isPaid = true ∧ o'.paidAt = some 150 ∧
        o'.isDelivered = orderW.isDelivered ∧ o'.deliveredAt = orderW.deliveredAt)) := by
  refine ⟨?_, rfl, rfl, rfl, ?_, ?_⟩
  · simp [dbS, findOrder, orderS]
  · simp [dbW, findOrderBySession, orderW, evW]
  · exact status_flag_timestamp_set_on_every_update (1/10) 100 150 adminU 6 dbS dbW
      orderS orderW evW (by simp [dbS, findOrder, orderS]) rfl rfl rfl
      (by simp [dbW, findOrderBySession, orderW, evW])

/-! ## C10: the status update accepts every enumerated status -/

/-- C10. For an existing order and an Admin actor, the status-update
operation succeeds (HTTP 200) for every enumerated status value and
stores exactly the requested status — no transition table is enforced,
so in particular a `Delivered` order can be moved back to `Pending`. -/
theorem updateOrderStatus_accepts_any_status (e : ℚ) (now : ℕ) (user : User)
    (oid : ℕ) (st : OrderStatus) (db : DB) (order : Order)
    (h1 : findOrder db.orders oid = some order) (h2 : user.role = .Admin) :
    (updateOrderStatus e now user oid st db).1 = 200 ∧
    ∃ o', findOrder (updateOrderStatus e now user oid st db).2.orders oid = some o' ∧
      o'.status = st := by
  rw [updateOrderStatus_admin_eq e now user oid st db order h1 h2]
  refine ⟨rfl, statusSavedOrder e now st order, ?_, ?_⟩
  · refine findOrder_saveOrder _ h1 ?_
    rw [statusSavedOrder, preSave_id]
    split
    · show order._id = oid
      exact findOrder_eq_some_id h1
    · show order._id = oid
      exact findOrder_eq_some_id h1
  · rw [statusSavedOrder, preSave_status]
    split
    · rfl
    · rfl

/-- A delivered order, to be moved back to `Pending`. -/
def orderD : Order :=
  { _id := 8, customer := 2,
    items := [{ product := 1, vendorId := 7, name := "Widget", image := "w.jpg",
                price := 1000, qty := 1, itemRevenue := 0, platformFee := 0,
                vendorPayout := 0, itemStatus := "Pending" }],
    shippingAddress := {}, subtotal := 0, platformFeeTotal := 0,
    shippingCost := 0, total := 0, commissionRate := 1/10,
    stripeSessionId := none, stripePaymentIntentId := none,
    status := .Delivered, isPaid := true, paidAt := some 10, isDelivered := true,
    deliveredAt := some 20 }

def dbD : DB := { orders := [orderD], products := [] }

theorem updateOrderStatus_accepts_any_status_witness :
    findOrder dbD.orders 8 = some orderD ∧ adminU.role = .Admin ∧
    ((updateOrderStatus (1/10) 300 adminU 8 .Pending dbD).1 = 200 ∧
    ∃ o', findOrder (updateOrderStatus (1/10) 300 adminU 8 .Pending dbD).2.orders 8 =
      some o' ∧ o'.status = .Pending) := by
  refine ⟨?_, rfl, ?_⟩
  · simp [dbD, findOrder, orderD]
  · exact updateOrderStatus_accepts_any_status (1/10) 300 adminU 8 .Pending dbD orderD
      (by simp [dbD, findOrder, orderD]) rfl

/-! ## C5: checkout is all-or-nothing -/

/-- A cart line passes the checkout validation: its product exists, is
active, and has at least the requested quantity in stock. -/
def lineOk (db : DB) (line : CartLine) : Prop :=
  match findProduct db.products line.productId with
  | none => False
  | some p => p.isActive = true ∧ (line.qty : ℤ) ≤ p.stock

/-- The error `createOrder` raises for the first failing cart line:
`NotFound` when the product is missing or inactive, otherwise
`InsufficientStock` naming the product and its remaining stock. -/
def expectedError (db : DB) (line : CartLine) : OrderError :=
  match findProduct db.products line.productId with
  | none => .notFound line.productId
  | some p =>
      if p.isActive = false then .notFound line.productId
      else .insufficientStock p.name p.stock

theorem validateItems_cons_error {db : DB} {l : CartLine} (l₂ : List CartLine)
    (hbad : ¬ lineOk db l) :
    validateItems db (l :: l₂) = .error (expectedError db l) := by
  cases hfp : findProduct db.products l.productId with
  | none => simp only [validateItems, expectedError, hfp]
  | some p =>
      rw [lineOk, hfp] at hbad
      simp only [validateItems, expectedError, hfp]
      by_cases hact : p.isActive = false
      · rw [if_pos hact, if_pos hact]
      · have hact' : p.isActive = true := by
          revert hact
          cases p.isActive <;> simp
        have hlt : p.stock < (l.qty : ℤ) := by
          by_contra hle
          exact hbad ⟨hact', not_lt.1 hle⟩
        rw [if_neg hact, if_neg hact, if_pos hlt]

theorem validateItems_append_error {db : DB} {l₁ l₂ : List CartLine} {e : OrderError}
    (hok : ∀ x ∈ l₁, lineOk db x) (herr : validateItems db l₂ = .error e) :
    validateItems db (l₁ ++ l₂) = .error e := by
  induction l₁ with
  | nil => simpa using herr
  | cons x xs ih =>
      have hx := hok x (List.mem_cons_self x xs)
      cases hfp : findProduct db.products x.productId with
      | none => rw [lineOk, hfp] at hx; exact absurd hx (fun h => h)
      | some p =>
          rw [lineOk, hfp] at hx
          rw [List.cons_append]
          simp only [validateItems, hfp]
          rw [if_neg (by rw [hx.1]; simp), if_neg (not_lt.2 hx.2),
            ih (fun y hy => hok y (List.mem_cons_of_mem x hy))]

/-- C5. Checkout is all-or-nothing: whenever some cart line fails
validation — its product missing or inactive, or its quantity above the
current stock — and every line before it is valid, `createOrder` returns
the corresponding error (`NotFound` for a missing/inactive product,
otherwise `InsufficientStock` with the product's name and remaining
stock) and the store is returned exactly as it was: no Order document is
created, however many other lines of the cart were valid. -/
theorem createOrder_rejects_bad_line (e : ℚ) (sid : String) (cust : ℕ)
    (req : OrderRequest) (db : DB) (l₁ : List CartLine) (l : CartLine)
    (l₂ : List CartLine) (hsplit : req.items = l₁ ++ l :: l₂)
    (hok : ∀ x ∈ l₁, lineOk db x) (hbad : ¬ lineOk db l) :
    createOrder e sid cust req db = (.error (expectedError db l), db) := by
  have hval : validateItems db (l₁ ++ l :: l₂) = .error (expectedError db l) :=
    validateItems_append_error hok (validateItems_cons_error l₂ hbad)
  rw [createOrder, hsplit, hval]
  rw [if_neg (by cases l₁ <;> simp)]

/-- An active product with plenty of stock, for the valid cart line. -/
def prodG : Product :=
  { id := 31, name := "Mug", price := 350, images := ["m.jpg"], stock := 10,
    vendorId := 7, isActive := true }

def dbG : DB := { orders := [], products := [prodG] }

/-- A cart mixing one valid line with one line naming a product id the
catalog does not contain. -/
def reqMixed : OrderRequest :=
  { items := [{ productId := 31, qty := 2 }, { productId := 99, qty := 1 }],
    shippingAddress := {}, shippingCost := 0 }

theorem createOrder_rejects_bad_line_witness :
    reqMixed.items = [{ productId := 31, qty := 2 }] ++
      { productId := 99, qty := 1 } :: [] ∧
    (∀ x ∈ [({ productId := 31, qty := 2 } : CartLine)], lineOk dbG x) ∧
    ¬ lineOk dbG { productId := 99, qty := 1 } ∧
    expectedError dbG { productId := 99, qty := 1 } = .notFound 99 ∧
    createOrder (1/10) "cs_5" 2 reqMixed dbG =
      (.error (expectedError dbG { productId := 99, qty := 1 }), dbG) := by
  have hok : ∀ x ∈ [({ productId := 31, qty := 2 } : CartLine)], lineOk dbG x := by
    intro x hx
    rw [List.mem_singleton] at hx
    subst hx
    exact ⟨rfl, by norm_num [prodG]⟩
  have hbad : ¬ lineOk dbG { productId := 99, qty := 1 } := fun h => h
  exact ⟨rfl, hok, hbad, rfl,
    createOrder_rejects_bad_line (1/10) "cs_5" 2 reqMixed dbG
      [{ productId := 31, qty := 2 }] { productId := 99, qty := 1 } [] rfl hok hbad⟩

/-! ## C8: the payment session charges the order total in minor units -/

theorem findProduct_mem {ps : List Product} {pid : ℕ} {p : Product}
    (h : findProduct ps pid = some p) : p ∈ ps := by
  induction ps with
  | nil => simp [findProduct] at h
  | cons x xs ih =>
      rw [findProduct] at h
      by_cases hx : x.id = pid
      · rw [if_pos hx] at h
        exact (Option.some.inj h) ▸ List.mem_cons_self x xs
      · rw [if_neg hx] at h
        exact List.mem_cons_of_mem x (ih h)

theorem validateItems_price_cent {db : DB} (hdb : ∀ p ∈ db.products, IsCent p.price) :
    ∀ (lines : List CartLine) (vitems : List OrderItem),
      validateItems db lines = .ok vitems → ∀ it ∈ vitems, IsCent it.price := by
  intro lines
  induction lines with
  | nil =>
      intro vitems hv it hit
      rw [validateItems] at hv
      have h := Except.ok.inj hv
      subst h
      simp at hit
  | cons line rest ih =>
      intro vitems hv it hit
      cases hfp : findProduct db.products line.productId with
      | none =>
          simp only [validateItems, hfp] at hv
          simp at hv
      | some p =>
          simp only [validateItems, hfp] at hv
          by_cases hact : p.isActive = false
          · rw [if_pos hact] at hv
            simp at hv
          · rw [if_neg hact] at hv
            by_cases hst : p.stock < (line.qty : ℤ)
            · rw [if_pos hst] at hv
              simp at hv
            · rw [if_neg hst] at hv
              cases hrest : validateItems db rest with
              | error e2 =>
                  simp only [hrest] at hv
                  simp at hv
              | ok tail =>
                  simp only [hrest] at hv
                  have h := Except.ok.inj hv
                  subst h
                  rcases List.mem_cons.1 hit with rfl | hmem
                  · exact hdb p (findProduct_mem hfp)
                  · exact ih tail hrest it hmem

theorem preSave_total_eq (e : ℚ) (o : Order) :
    (preSave e o).total =
      round2 ((o.items.map (fun it => it.price * (it.qty : ℚ))).sum + o.shippingCost) := by
  rw [preSave_total]
  have h : ((o.items.map (computeItem (orderRate o.commissionRate e))).map
      (fun it => it.itemRevenue)).sum =
      (o.items.map (fun it => it.price * (it.qty : ℚ))).sum := by
    rw [List.map_map]
    exact congrArg List.sum (List.map_congr_left fun it _ => computeItem_itemRevenue _ it)
  rw [h]

theorem preSave_items_price_qty (e : ℚ) (o : Order) :
    (preSave e o).items.map (fun it => it.price * (it.qty : ℚ)) =
      o.items.map (fun it => it.price * (it.qty : ℚ)) := by
  rw [preSave_items, List.map_map]
  exact List.map_congr_left fun it _ => by
    simp only [Function.comp_apply, computeItem_price, computeItem_qty]

theorem sessionTotal_eq (s : StripeSession) (items : List OrderItem) (c : ℚ)
    (h : s.lineItems = buildLineItems items c) :
    sessionTotalMinor s =
      (items.map (fun it => jsRound (it.price * 100) * (it.qty : ℤ))).sum +
        (if c > 0 then jsRound (c * 100) else 0) := by
  rw [sessionTotalMinor, h, buildLineItems]
  by_cases hc : c > 0
  · rw [if_pos hc, if_pos hc, List.map_append, List.sum_append, List.map_map]
    simp only [List.map_cons, List.map_nil, List.sum_cons, List.sum_nil, add_zero,
      Nat.cast_one, mul_one]
    rfl
  · rw [if_neg hc, if_neg hc, add_zero, List.map_map]
    rfl

theorem sum_jsRound_cast (items : List OrderItem)
    (h : ∀ it ∈ items, IsCent it.price) :
    (((items.map (fun it => jsRound (it.price * 100) * (it.qty : ℤ))).sum : ℤ) : ℚ) =
      ((items.map (fun it => it.price * (it.qty : ℚ))).sum) * 100 := by
  induction items with
  | nil => simp
  | cons x xs ih =>
      simp only [List.map_cons, List.sum_cons]
      have hx : ((jsRound (x.price * 100) : ℤ) : ℚ) = x.price * 100 := by
        obtain ⟨k, hk⟩ := (isCent_iff _).1 (h x (List.mem_cons_self x xs))
        rw [hk, div_mul_cancel₀ _ (by norm_num : (100:ℚ) ≠ 0), jsRound_intCast]
      rw [Int.cast_add, Int.cast_mul, Int.cast_natCast, hx,
        ih (fun y hy => h y (List.mem_cons_of_mem x hy))]
      ring

/-- C8. For every successful checkout, assuming catalog prices and the
requested shipping cost are whole numbers of paisa (and shipping cost is
non-negative, as the request validator enforces): the Stripe session's
total charged amount in minor units — the sum over its line items of
`unit_amount × quantity` — equals the persisted order's `total` times
100, rounded to the nearest integer. -/
theorem createOrder_session_minor_units_total (e : ℚ) (sid : String) (cust : ℕ)
    (req : OrderRequest) (db : DB) (res : CreateOrderResult)
    (hdb : ∀ p ∈ db.products, IsCent p.price)
    (hship : IsCent req.shippingCost)
    (hshipnn : 0 ≤ req.shippingCost)
    (hok : (createOrder e sid cust req db).1 = .ok res) :
    sessionTotalMinor res.session = jsRound (res.order.total * 100) := by
  rw [createOrder] at hok
  by_cases hemp : req.items.isEmpty = true
  · rw [if_pos hemp] at hok
    simp at hok
  · rw [if_neg hemp] at hok
    cases hv : validateItems db req.items with
    | error err =>
        simp only [hv] at hok
        simp at hok
    | ok vitems =>
        simp only [hv] at hok
        have hres := (Except.ok.inj hok).symm
        subst hres
        have hcent : ∀ it ∈ vitems, IsCent it.price :=
          validateItems_price_cent hdb req.items vitems hv
        have hSmem : ∀ x ∈ vitems.map (fun it => it.price * (it.qty : ℚ)), IsCent x := by
          intro x hx
          obtain ⟨it, hit, rfl⟩ := List.mem_map.1 hx
          exact isCent_mul_nat _ (hcent it hit)
        have hS : IsCent ((vitems.map (fun it => it.price * (it.qty : ℚ))).sum) :=
          isCent_listSum hSmem
        have htot : (preSave e { preSave e (newOrderDoc cust req db vitems) with
            stripeSessionId := some sid }).total =
            (vitems.map (fun it => it.price * (it.qty : ℚ))).sum + req.shippingCost := by
          have h1 : (preSave e { preSave e (newOrderDoc cust req db vitems) with
              stripeSessionId := some sid }).total =
              round2 (((preSave e (newOrderDoc cust req db vitems)).items.map
                (fun it => it.price * (it.qty : ℚ))).sum +
                (preSave e (newOrderDoc cust req db vitems)).shippingCost) :=
            preSave_total_eq e _
          rw [h1, preSave_items_price_qty, preSave_shippingCost,
            show (newOrderDoc cust req db vitems).items = vitems from rfl,
            show (newOrderDoc cust req db vitems).shippingCost = req.shippingCost from rfl]
          exact round2_eq_self (isCent_add hS hship)
        show sessionTotalMinor
            { id := sid, lineItems := buildLineItems vitems req.shippingCost,
              metadataOrderId := (preSave e (newOrderDoc cust req db vitems))._id } =
          jsRound ((preSave e { preSave e (newOrderDoc cust req db vitems) with
            stripeSessionId := some sid }).total * 100)
        rw [sessionTotal_eq _ vitems req.shippingCost rfl, htot]
        obtain ⟨K, hK⟩ := (isCent_iff _).1 (isCent_add hS hship)
        obtain ⟨j, hj⟩ := (isCent_iff _).1 hship
        have hsum := sum_jsRound_cast vitems hcent
        rw [hK, div_mul_cancel₀ _ (by norm_num : (100:ℚ) ≠ 0), jsRound_intCast]
        by_cases hc : req.shippingCost > 0
        · rw [if_pos hc, hj, div_mul_cancel₀ _ (by norm_num : (100:ℚ) ≠ 0),
            jsRound_intCast]
          have hq : (((vitems.map (fun it => jsRound (it.price * 100) * (it.qty : ℤ))).sum
              + j : ℤ) : ℚ) = (K : ℚ) := by
            rw [Int.cast_add, hsum]
            have hKq : (K : ℚ) = ((vitems.map (fun it => it.price * (it.qty : ℚ))).sum +
                req.shippingCost) * 100 := by
              rw [hK, div_mul_cancel₀ _ (by norm_num : (100:ℚ) ≠ 0)]
            have hjq : (j : ℚ) = req.shippingCost * 100 := by
              rw [hj, div_mul_cancel₀ _ (by norm_num : (100:ℚ) ≠ 0)]
            rw [hKq, hjq]
            ring
          exact_mod_cast hq
        · have hc0 : req.shippingCost = 0 := le_antisymm (not_lt.1 hc) hshipnn
          rw [if_neg hc, add_zero]
          have hq : (((vitems.map (fun it => jsRound (it.price * 100) * (it.qty : ℤ))).sum
              : ℤ) : ℚ) = (K : ℚ) := by
            rw [hsum]
            have hKq : (K : ℚ) = ((vitems.map (fun it => it.price * (it.qty : ℚ))).sum +
                req.shippingCost) * 100 := by
              rw [hK, div_mul_cancel₀ _ (by norm_num : (100:ℚ) ≠ 0)]
            rw [hKq, hc0]
            ring
          exact_mod_cast hq

/-- The snapshot line item `createOrder` builds for a cart line of 2 Mugs. -/
def item31 : OrderItem :=
  { product := 31, vendorId := 7, name := "Mug", image := "m.jpg", price := 350,
    qty := 2, itemRevenue := 0, platformFee := 0, vendorPayout := 0,
    itemStatus := "Pending" }

/-- A checkout request for 2 Mugs with free shipping. -/
def req8 : OrderRequest :=
  { items := [{ productId := 31, qty := 2 }], shippingAddress := {}, shippingCost := 0 }

/-- The result `createOrder` produces for `req8` against `dbG`. -/
def res8 : CreateOrderResult :=
  { order := preSave (1/10) { preSave (1/10) (newOrderDoc 2 req8 dbG [item31]) with
      stripeSessionId := some "cs_8" },
    session := { id := "cs_8", lineItems := buildLineItems [item31] 0,
                 metadataOrderId := (preSave (1/10) (newOrderDoc 2 req8 dbG [item31]))._id } }

theorem createOrder_session_minor_units_total_witness :
    (∀ p ∈ dbG.products, IsCent p.price) ∧ IsCent req8.shippingCost ∧
    (0:ℚ) ≤ req8.shippingCost ∧
    (createOrder (1/10) "cs_8" 2 req8 dbG).1 = .ok res8 ∧
    sessionTotalMinor res8.session = jsRound (res8.order.total * 100) := by
  have h1 : ∀ p ∈ dbG.products, IsCent p.price := by
    intro p hp
    simp only [dbG, List.mem_singleton] at hp
    subst hp
    exact (isCent_iff _).2 ⟨35000, by norm_num [prodG]⟩
  have h2 : IsCent req8.shippingCost := (isCent_iff _).2 ⟨0, by norm_num [req8]⟩
  have h3 : (0:ℚ) ≤ req8.shippingCost := by norm_num [req8]
  have h4 : (createOrder (1/10) "cs_8" 2 req8 dbG).1 = .ok res8 := rfl
  exact ⟨h1, h2, h3, h4,
    createOrder_session_minor_units_total (1/10) "cs_8" 2 req8 dbG res8 h1 h2 h3 h4⟩
